import Mathlib

/-!
Verification of the session/request lifecycle core of the `shai` HTTP
serving layer (crate `shai-http`), shallowly embedded in Lean 4.

The embedding mirrors:
  * `src/shai-http/src/session/persist.rs`  — `SessionPersist` (durable store)
  * `src/shai-http/src/session/manager.rs`  — `SessionManager` (registry)
  * `src/shai-http/src/session/lifecycle.rs`— `RequestLifecycle` (drop actions)
  * `src/shai-http/src/lib.rs`              — `DisconnectionHandler` (stream wrapper)

Effectful Rust operations become pure functions over explicit state:
the file system is an association list from paths to file contents, the
registry is an association list from identifiers to sessions, timestamps
are naturals, and tokio `spawn`ed cleanup bodies are represented by the
list of externally visible actions they perform.
-/

namespace Shai

/-- Stand-in for the external `openai_dive`/`shai_llm` `ChatMessage` type.
The core treats messages as opaque payloads, so a single-field wrapper
suffices; nothing in the verified code inspects a message. -/
structure ChatMessage where
  content : String
deriving DecidableEq, Repr

/-- Timestamps (`chrono::DateTime<Utc>`) as naturals: only equality and
order are used by the code under verification. -/
abbrev Timestamp := Nat

/-! ## Persistent session store (`session/persist.rs`) -/

/-- Rust `SessionData` from `persist.rs`: the on-disk record. -/
structure SessionData where
  session_id : String
  created_at : Timestamp
  updated_at : Timestamp
  trace : List ChatMessage
deriving DecidableEq, Repr

/-- Content of one file as a reader sees it: either a complete record
that `serde_json::from_str::<SessionData>` parses back, or bytes that
fail to read or to parse (`invalid`). -/
inductive FileContent
  | valid (d : SessionData)
  | invalid (raw : String)
deriving DecidableEq, Repr

/-- The file system: an association list from paths to file contents.
Absent path = no file. -/
abbrev FS := List (String × FileContent)

/-- First-match association lookup (the path-to-content map). -/
def lookupFS {α : Type} : List (String × α) → String → Option α
  | [], _ => none
  | (k, v) :: rest, key => if k = key then some v else lookupFS rest key

/-- Remove every binding of `key` from an association list. -/
def removeKey {α : Type} : List (String × α) → String → List (String × α)
  | [], _ => []
  | (k, v) :: rest, key =>
    if k = key then removeKey rest key else (k, v) :: removeKey rest key

/-- Environment configuration read by `SessionPersist`: the values of
`SHAI_SESSION_PERSIST_ENABLE` and `SHAI_SESSION_PERSIST_FOLDER`
(`none` = variable unset), the current wall-clock time, whether
`fs::create_dir_all` succeeds, and the fresh UUID used for the temporary
file name. -/
structure PersistCtx where
  env_enable : Option String
  env_folder : Option String
  now : Timestamp
  create_dir_ok : Bool
  tmp_uuid : String
deriving DecidableEq, Repr

/-- Rust `str::to_lowercase`, character by character (Rust's and Lean's
lowercasing agree on every string compared against `"true"` below). -/
def toLowercase (s : String) : String :=
  ⟨s.data.map Char.toLower⟩

/-- Rust `SessionPersist::is_enabled`: unset means enabled; otherwise the
lowercased value must equal `"true"`. -/
def is_enabled (env_enable : Option String) : Bool :=
  match env_enable with
  | some v => toLowercase v == "true"
  | none => true

/-- Rust `SessionPersist::folder`: the storage folder path. -/
def folder (env_folder : Option String) : String :=
  match env_folder with
  | some p => p
  | none => ".shai/sessions"

/-- Rust `SessionPersist::session_file_path`: `folder/{session_id}.json`. -/
def session_file_path (env_folder : Option String) (session_id : String) : String :=
  folder env_folder ++ "/" ++ session_id ++ ".json"

/-- The temporary path `folder/{uuid}.tmp` used by `save_session`. -/
def temp_file_path (env_folder : Option String) (tmp_uuid : String) : String :=
  folder env_folder ++ "/" ++ tmp_uuid ++ ".tmp"

/-- The timestamp pair computed by `save_session`: if the existing file
is readable and parses, reuse its `created_at` and stamp `updated_at`
with now; otherwise both are now. -/
def save_timestamps (existing : Option FileContent) (now : Timestamp) :
    Timestamp × Timestamp :=
  match existing with
  | some (.valid d) => (d.created_at, now)
  | some (.invalid _) => (now, now)
  | none => (now, now)

/-- The full record `save_session` serializes. -/
def save_record (ctx : PersistCtx) (fs : FS) (session_id : String)
    (trace : List ChatMessage) : SessionData :=
  let ts := save_timestamps (lookupFS fs (session_file_path ctx.env_folder session_id)) ctx.now
  { session_id := session_id
    created_at := ts.1
    updated_at := ts.2
    trace := trace }

/-- Errors surfaced by the store. -/
inductive PersistError
  | dirCreateFailed
  | notEnabled
  | notFound (session_id : String)
  | parseFailed
deriving DecidableEq, Repr

/-- One atomic file-system transition performed during a save: writing
a (possibly still partial) content to a path, or the atomic
`fs::rename`, which moves the content at `src` onto `dst`. -/
inductive FsStep
  | write (path : String) (c : FileContent)
  | rename (src dst : String)
deriving DecidableEq, Repr

/-- Effect of one `FsStep` on the file system. `write` replaces the
content at its path; `rename` atomically installs the source file's
content at the destination and removes the source (no-op if the source
is absent). -/
def applyStep (fs : FS) : FsStep → FS
  | .write p c => (p, c) :: removeKey fs p
  | .rename src dst =>
    match lookupFS fs src with
    | none => fs
    | some c => (dst, c) :: removeKey (removeKey fs src) dst

/-- Effect of a sequence of steps. -/
def applySteps (fs : FS) : List FsStep → FS
  | [] => fs
  | s :: rest => applySteps (applyStep fs s) rest

/-- The file-system step sequence of `SessionPersist::save_session` once
the record is serialized: write the complete record to the fresh
temporary path, then rename the temporary onto the final path. -/
def save_steps (ctx : PersistCtx) (fs : FS) (session_id : String)
    (trace : List ChatMessage) : List FsStep :=
  [ .write (temp_file_path ctx.env_folder ctx.tmp_uuid)
      (.valid (save_record ctx fs session_id trace)),
    .rename (temp_file_path ctx.env_folder ctx.tmp_uuid)
      (session_file_path ctx.env_folder session_id) ]

/-- Rust `SessionPersist::save_session`: no-op success when persistence is
disabled; error when the storage directory cannot be created; otherwise
the write-temp-then-rename sequence runs to completion. Returns the
result together with the final file system. -/
def save_session (ctx : PersistCtx) (fs : FS) (session_id : String)
    (trace : List ChatMessage) : Except PersistError Unit × FS :=
  if ¬ is_enabled ctx.env_enable then (.ok (), fs)
  else if ¬ ctx.create_dir_ok then (.error .dirCreateFailed, fs)
  else (.ok (), applySteps fs (save_steps ctx fs session_id trace))

/-- Rust `SessionPersist::load_session`: fails when persistence is disabled,
when no file exists, or when the file does not parse. -/
def load_session (ctx : PersistCtx) (fs : FS) (session_id : String) :
    Except PersistError SessionData :=
  if ¬ is_enabled ctx.env_enable then .error .notEnabled
  else
    match lookupFS fs (session_file_path ctx.env_folder session_id) with
    | none => .error (.notFound session_id)
    | some (.invalid _) => .error .parseFailed
    | some (.valid d) => .ok d

/-- Function `SessionPersist::delete_session`: best-effort removal. -/
def delete_session (ctx : PersistCtx) (fs : FS) (session_id : String) : FS :=
  if ¬ is_enabled ctx.env_enable then fs
  else removeKey fs (session_file_path ctx.env_folder session_id)

/-! ## Session manager (`session/manager.rs`) -/

/-- Rust `AgentSession` (constructed in `manager.rs::create_session`): the
agent's controller, event receiver and run task are summarized by the
identity `agentInstance` of the underlying agent instance started for
this session; `watcherSpawned` records that the cleanup task watching
`agent.run()` was spawned at creation. -/
structure AgentSession where
  id : String
  agentInstance : Nat
  agent_name : Option String
  ephemeral : Bool
  watcherSpawned : Bool
deriving DecidableEq, Repr

/-- Rust `AgentError` from `shai_core` as used by the manager: every failure
the manager produces is `ExecutionError(msg)`. -/
inductive AgentError
  | executionError (msg : String)
deriving DecidableEq, Repr

/-- The `ExecutionError` raised when the creation gate is closed. -/
def sessionCreationDisabledErr : AgentError :=
  .executionError "Session creation disabled"

/-- The `ExecutionError` raised at the capacity limit. -/
def capacityExceededErr (max : Nat) : AgentError :=
  .executionError ("Maximum number of sessions reached: " ++ toString max)

/-- The `ExecutionError` raised when `AgentBuilder::create` fails. -/
def agentCreationFailedErr : AgentError :=
  .executionError "Failed to create agent"

/-- Rust `SessionManager` state: the registry (an association list standing
for the lock-protected `HashMap<String, Arc<AgentSession>>`), the
policy fields, and `nextAgent`, the supply of fresh agent-instance
identities (each successful `AgentBuilder...build()` consumes one). -/
structure ManagerState where
  sessions : List (String × AgentSession)
  max_sessions : Option Nat
  allow_creation : Bool
  ephemeral : Bool
  nextAgent : Nat
deriving DecidableEq, Repr

/-- Rust `SessionManager::new`. -/
def managerNew (max_sessions : Option Nat) (ephemeral : Bool) : ManagerState :=
  { sessions := []
    max_sessions := max_sessions
    allow_creation := true
    ephemeral := ephemeral
    nextAgent := 0 }

/-- Rust `SessionManager::create_session` (the part after `AgentBuilder`
succeeded): build the agent, spawn the watcher task, and return the
new `AgentSession`. The inserted registry entry is made by the caller. -/
def create_session (st : ManagerState) (session_id : String)
    (agent_name : Option String) (ephemeral : Bool) :
    AgentSession × ManagerState :=
  ({ id := session_id
     agentInstance := st.nextAgent
     agent_name := agent_name
     ephemeral := ephemeral
     watcherSpawned := true },
   { st with nextAgent := st.nextAgent + 1 })

/-- Rust `SessionManager::get_or_create_session`, the whole body of which runs
with the registry lock held and is therefore one atomic transition:
return the existing session on a hit; otherwise check the creation gate,
then the capacity limit, then start the agent (`agent_start_ok` says
whether `AgentBuilder::create` succeeds) and insert the new session. -/
def get_or_create_session (st : ManagerState) (session_id : String)
    (agent_name : Option String) (ephemeral : Bool) (agent_start_ok : Bool) :
    Except AgentError (AgentSession × ManagerState) :=
  match lookupFS st.sessions session_id with
  | some session => .ok (session, st)
  | none =>
    if ¬ st.allow_creation then .error sessionCreationDisabledErr
    else
      match st.max_sessions with
      | some max =>
        if st.sessions.length ≥ max then .error (capacityExceededErr max)
        else if ¬ agent_start_ok then .error agentCreationFailedErr
        else
          let (session, st') := create_session st session_id agent_name ephemeral
          .ok (session, { st' with sessions := (session_id, session) :: st'.sessions })
      | none =>
        if ¬ agent_start_ok then .error agentCreationFailedErr
        else
          let (session, st') := create_session st session_id agent_name ephemeral
          .ok (session, { st' with sessions := (session_id, session) :: st'.sessions })

/-- The session-resolution part of `SessionManager::handle_request`:
a missing `session_id` is replaced by a fresh UUID (`fresh_uuid`), then
the session is resolved or created; the resolved identifier is returned
to the caller alongside the session. -/
def handle_request_resolve (st : ManagerState) (session_id : Option String)
    (fresh_uuid : String) (agent_name : Option String) (agent_start_ok : Bool) :
    Except AgentError (AgentSession × String × ManagerState) :=
  let sid :=
    match session_id with
    | some s => s
    | none => fresh_uuid
  match get_or_create_session st sid agent_name st.ephemeral agent_start_ok with
  | .error e => .error e
  | .ok (session, st') => .ok (session, sid, st')

/-- The tail of the watcher task spawned in `create_session`: once
`agent.run()` returns — `outcome` is its `Ok`/`Err` result — the task
takes the registry lock and removes this session's entry. -/
def watcher_cleanup (st : ManagerState) (session_id : String)
    (outcome : Except String Unit) : ManagerState :=
  match outcome with
  | .ok _ => { st with sessions := removeKey st.sessions session_id }
  | .error _ => { st with sessions := removeKey st.sessions session_id }

/-- Rust `SessionManager::session_count`. -/
def session_count (st : ManagerState) : Nat :=
  st.sessions.length

/-- Rust `SessionManager::set_allow_creation`. -/
def set_allow_creation (st : ManagerState) (allow : Bool) : ManagerState :=
  { st with allow_creation := allow }

/-- A sequence of `n` `handle_request` resolutions that all carry the
same explicit `session_id`. The registry mutex serializes the critical
sections of concurrent callers, so any concurrent execution is some
sequential order of these atomic transitions; the list collects what
each caller observes. -/
def runRequests (st : ManagerState) (session_id : String)
    (agent_name : Option String) (agent_start_ok : Bool) :
    Nat → List (Except AgentError (AgentSession × String)) × ManagerState
  | 0 => ([], st)
  | n + 1 =>
    match handle_request_resolve st (some session_id) "" agent_name agent_start_ok with
    | .error e =>
      let rest := runRequests st session_id agent_name agent_start_ok n
      (.error e :: rest.1, rest.2)
    | .ok (session, sid, st') =>
      let rest := runRequests st' session_id agent_name agent_start_ok n
      (.ok (session, sid) :: rest.1, rest.2)

/-! ## Request lifecycle guard (`session/lifecycle.rs`) -/

/-- Rust `RequestLifecycle`: the tagged guard. The held
`OwnedMutexGuard<AgentController>` is summarized by the identity of the
controller (= agent instance) it locks. -/
inductive RequestLifecycle
  | background (controller : Nat) (request_id : String) (session_id : String)
  | ephemeral (controller : Nat) (request_id : String) (session_id : String)
deriving DecidableEq, Repr

/-- Rust `RequestLifecycle::new`. -/
def RequestLifecycle.new (ephemeral : Bool) (controller : Nat)
    (request_id : String) (session_id : String) : RequestLifecycle :=
  match ephemeral with
  | true => .ephemeral controller request_id session_id
  | false => .background controller request_id session_id

/-- One externally visible action of the cleanup task spawned by
`Drop for RequestLifecycle`. -/
inductive ReleaseAction
  | saveSession (session_id : String) (trace : List ChatMessage)
  | warnTraceFailed (session_id : String)
  | warnSaveFailed (session_id : String)
  | terminate (controller : Nat)
deriving DecidableEq, Repr

/-- The body shared by both drop branches: fetch the trace via the
controller (`trace_result` is `ctrl.get_trace()`'s outcome), persist on
success (`save_err`: whether `save_session` then failed), and only warn
on either failure. -/
def drop_persist_actions (session_id : String)
    (trace_result : Except String (List ChatMessage))
    (save_err : Bool) : List ReleaseAction :=
  match trace_result with
  | .ok trace =>
    .saveSession session_id trace ::
      (if save_err then [.warnSaveFailed session_id] else [])
  | .error _ => [.warnTraceFailed session_id]

/-- Rust `Drop for RequestLifecycle`: the action sequence of the spawned
cleanup task. Rust runs `drop` exactly once per guard, on every exit
path; this function is that single run. A `Background` guard only
persists; an `Ephemeral` guard persists and then terminates the agent. -/
def lifecycle_drop (g : RequestLifecycle)
    (trace_result : Except String (List ChatMessage))
    (save_err : Bool) : List ReleaseAction :=
  match g with
  | .background _ _ session_id =>
    drop_persist_actions session_id trace_result save_err
  | .ephemeral controller _ session_id =>
    drop_persist_actions session_id trace_result save_err ++
      [.terminate controller]

/-! ## Disconnection-aware stream (`lib.rs::DisconnectionHandler`) -/

/-- Rust `DisconnectionHandler`: wraps the outbound response stream. The
inner stream is the list of items it will still yield; `controller` is
`Option` because `Drop` takes it. `Modelled from the spec:` the
construction site (`apis/simple/handler.rs`, not under `src/`) sets
`completed: false` when wrapping a fresh response stream, per §4.5
("a single boolean, set only when the underlying sequence signals it
has no more items"). -/
structure DisconnectionHandler where
  stream : List String
  controller : Option Nat
  session_id : Nat
  completed : Bool
deriving DecidableEq, Repr

/-- Rust `<DisconnectionHandler as Stream>::poll_next` on a ready inner
stream: yields the next item, or observes exhaustion and sets
`completed`. -/
def pollNext (h : DisconnectionHandler) : Option String × DisconnectionHandler :=
  match h.stream with
  | [] => (none, { h with completed := true })
  | item :: rest => (some item, { h with stream := rest })

/-- Modelled from the spec: the construction site of `DisconnectionHandler`
(`apis/simple/handler.rs`, referenced from `apis/simple/mod.rs` but not
among the provided sources) wraps a freshly produced response stream, so
per §4.5 the "drained normally" flag starts unset (`completed: false`)
and is "set only when the underlying sequence signals it has no more
items to produce". -/
def DisconnectionHandler.new (stream : List String) (controller : Option Nat)
    (session_id : Nat) : DisconnectionHandler :=
  { stream := stream
    controller := controller
    session_id := session_id
    completed := false }

/-- The consumer polls the wrapper `n` times, then abandons or drops it. -/
def pollN (h : DisconnectionHandler) : Nat → DisconnectionHandler
  | 0 => h
  | n + 1 => pollN (pollNext h).2 n

/-- Externally visible actions of `Drop for DisconnectionHandler`. -/
inductive DropAction
  | cancel (controller : Nat)
  | logCompleted (session_id : Nat)
  | logDisconnected (session_id : Nat)
deriving DecidableEq, Repr

/-- Rust `Drop for DisconnectionHandler`: if a controller is present, either
log completion (drained normally, no cancellation) or log the
disconnect and spawn `controller.cancel()`. -/
def handler_drop (h : DisconnectionHandler) : List DropAction :=
  match h.controller with
  | none => []
  | some controller =>
    if h.completed then [.logCompleted h.session_id]
    else [.logDisconnected h.session_id, .cancel controller]

/-- Number of `cancel` calls a drop issues. -/
def cancelCount (actions : List DropAction) : Nat :=
  (actions.filter (fun a =>
    match a with
    | .cancel _ => true
    | _ => false)).length

/-! ## Per-session control lease

`Modelled from the spec:` the acquisition site — `AgentSession::handle_request`
in `src/shai-http/src/session/session.rs` — is not among the provided
sources; only the guard type (`OwnedMutexGuard<AgentController>` held
inside `RequestLifecycle`, `lifecycle.rs`) is. Per §5, each session's
controller sits behind its own asynchronous mutex: a request acquires
the lock to obtain its `RequestLifecycleGuard` and the lock is released
when the guard drops. The protocol below is that mutex: the state is
the identity of the request currently holding the lease (if any), an
acquire is enabled only when the lease is free, and a release is
enabled only for the holder. -/

/-- Lease-protocol events: request `r` acquires or releases the
session's controller lease. -/
inductive LeaseEvent
  | acquire (r : Nat)
  | release (r : Nat)
deriving DecidableEq, Repr

/-- Modelled from the spec: one step of the per-session asynchronous
mutex of §5 (its acquisition site, `AgentSession::handle_request` in
`session/session.rs`, is not among the provided sources). `none` means
the event is not enabled in this state: an acquiring request suspends
until the holder releases, and only the holder can release. -/
def leaseStep (holder : Option Nat) : LeaseEvent → Option (Option Nat)
  | .acquire r =>
    match holder with
    | none => some (some r)
    | some _ => none
  | .release r =>
    match holder with
    | some h => if h = r then some none else none
    | none => none

/-- Run a sequence of lease events; `none` when some event was taken
while not enabled. -/
def runLease (holder : Option Nat) : List LeaseEvent → Option (Option Nat)
  | [] => some holder
  | e :: es =>
    match leaseStep holder e with
    | none => none
    | some holder' => runLease holder' es

/-- Number of guards acquired over a trace. -/
def countAcq : List LeaseEvent → Nat
  | [] => 0
  | .acquire _ :: es => countAcq es + 1
  | .release _ :: es => countAcq es

/-- Number of guards released over a trace. -/
def countRel : List LeaseEvent → Nat
  | [] => 0
  | .acquire _ :: es => countRel es
  | .release _ :: es => countRel es + 1

/-- Number of live guards represented by a lease state. -/
def liveOf (holder : Option Nat) : Nat :=
  match holder with
  | some _ => 1
  | none => 0

/-! ## Helper functions over action lists -/

/-- Session identifier carried by a lifecycle guard. -/
def RequestLifecycle.sessionId : RequestLifecycle → String
  | .background _ _ session_id => session_id
  | .ephemeral _ _ session_id => session_id

/-- Controller identity locked by a lifecycle guard. -/
def RequestLifecycle.controllerOf : RequestLifecycle → Nat
  | .background controller _ _ => controller
  | .ephemeral controller _ _ => controller

/-- Whether a guard carries the `Ephemeral` tag. -/
def RequestLifecycle.isEphemeral : RequestLifecycle → Bool
  | .background _ _ _ => false
  | .ephemeral _ _ _ => true

/-- Number of `terminate` calls in a release-action sequence. -/
def terminateCount (actions : List ReleaseAction) : Nat :=
  (actions.filter (fun a =>
    match a with
    | .terminate _ => true
    | _ => false)).length

/-- Number of persistence writes in a release-action sequence. -/
def saveCount (actions : List ReleaseAction) : Nat :=
  (actions.filter (fun a =>
    match a with
    | .saveSession _ _ => true
    | _ => false)).length

/-! ## Helper lemmas -/

theorem lookupFS_cons_self {α : Type} (k : String) (v : α)
    (rest : List (String × α)) : lookupFS ((k, v) :: rest) k = some v := by
  simp [lookupFS]

theorem lookupFS_removeKey_self {α : Type} (fs : List (String × α))
    (key : String) : lookupFS (removeKey fs key) key = none := by
  induction fs with
  | nil => simp [removeKey, lookupFS]
  | cons p rest ih =>
    obtain ⟨k, v⟩ := p
    by_cases hk : k = key
    · simpa [removeKey, hk] using ih
    · simpa [removeKey, lookupFS, hk] using ih

theorem lookupFS_removeKey_ne {α : Type} (fs : List (String × α))
    (key k : String) (h : k ≠ key) :
    lookupFS (removeKey fs key) k = lookupFS fs k := by
  induction fs with
  | nil => simp [removeKey]
  | cons p rest ih =>
    obtain ⟨k', v⟩ := p
    by_cases hk : k' = key
    · simp [removeKey, hk, lookupFS, Ne.symm h, ih]
    · by_cases hk2 : k' = k
      · simp [removeKey, hk, lookupFS, hk2, h]
      · simp [removeKey, hk, lookupFS, hk2, ih]

theorem pollN_completed_stays (c : Option Nat) (s : Nat) (n : Nat) :
    pollN ⟨[], c, s, true⟩ n = ⟨[], c, s, true⟩ := by
  induction n with
  | zero => rfl
  | succ n ih => simpa [pollN, pollNext] using ih

theorem pollN_spec (items : List String) (c : Option Nat) (s : Nat) (k : Nat) :
    pollN ⟨items, c, s, false⟩ k =
      if k ≤ items.length then ⟨items.drop k, c, s, false⟩
      else ⟨[], c, s, true⟩ := by
  induction k generalizing items with
  | zero => simp [pollN]
  | succ k ih =>
    cases items with
    | nil => simp [pollN, pollNext, pollN_completed_stays]
    | cons i rest => simpa [pollN, pollNext, Nat.succ_le_succ_iff] using ih rest

/-- Capacity check of the resolution algorithm: `max_sessions`, when
set, must exceed the current registry size for a creation to proceed. -/
def capacity_available (st : ManagerState) : Prop :=
  match st.max_sessions with
  | some max => st.sessions.length < max
  | none => True

theorem get_or_create_hit (st : ManagerState) (sid : String)
    (an : Option String) (eph ok : Bool) (s : AgentSession)
    (h : lookupFS st.sessions sid = some s) :
    get_or_create_session st sid an eph ok = .ok (s, st) := by
  simp [get_or_create_session, h]

/-- The registry state produced by a successful creation: `create_session`
ran (starting one agent instance and spawning the watcher) and the new
session was inserted under its identifier. -/
def insertedState (st : ManagerState) (sid : String) (an : Option String)
    (eph : Bool) : ManagerState :=
  { (create_session st sid an eph).2 with
      sessions := (sid, (create_session st sid an eph).1) :: st.sessions }

theorem get_or_create_miss (st : ManagerState) (sid : String)
    (an : Option String) (eph : Bool) (hl : lookupFS st.sessions sid = none)
    (hallow : st.allow_creation = true) (hcap : capacity_available st) :
    get_or_create_session st sid an eph true =
      .ok ((create_session st sid an eph).1, insertedState st sid an eph) := by
  unfold get_or_create_session create_session insertedState
  rw [hl]
  cases hmax : st.max_sessions with
  | none => simp [hallow, create_session, hmax]
  | some max =>
    have hlen : st.sessions.length < max := by
      simpa [capacity_available, hmax] using hcap
    simp [hallow, Nat.not_le.mpr hlen, create_session, hmax]

theorem save_fs_final (ctx : PersistCtx) (fs : FS) (sid : String)
    (tr : List ChatMessage) :
    lookupFS (applySteps fs (save_steps ctx fs sid tr))
      (session_file_path ctx.env_folder sid) =
      some (.valid (save_record ctx fs sid tr)) := by
  simp [save_steps, applySteps, applyStep, lookupFS_cons_self]

theorem save_load_eq (ctx : PersistCtx) (fs : FS) (sid : String)
    (tr : List ChatMessage) (hen : is_enabled ctx.env_enable = true)
    (hdir : ctx.create_dir_ok = true) :
    load_session ctx (save_session ctx fs sid tr).2 sid =
      .ok (save_record ctx fs sid tr) := by
  have h1 := save_fs_final ctx fs sid tr
  simp [save_session, hen, hdir, load_session, h1]

/-! ## Claims -/

/-- Claim C10: persistence is enabled iff `SHAI_SESSION_PERSIST_ENABLE` is
unset or its lowercased value equals exactly `"true"`; any other value,
including `"1"` or `"yes"`, disables it, making `save_session` a silent
no-op success and `load_session` a failure. -/
theorem claim_C10_persistence_enable_flag :
    (∀ env : Option String,
      is_enabled env = true ↔
        env = none ∨ ∃ v, env = some v ∧ toLowercase v = "true") ∧
    is_enabled (some "1") = false ∧
    is_enabled (some "yes") = false ∧
    is_enabled none = true ∧
    is_enabled (some "TRUE") = true ∧
    (∀ (ctx : PersistCtx) (fs : FS) (sid : String) (tr : List ChatMessage),
      is_enabled ctx.env_enable = false →
        save_session ctx fs sid tr = (.ok (), fs) ∧
        load_session ctx fs sid = .error .notEnabled) := by
  refine ⟨?_, by decide, by decide, by decide, by decide, ?_⟩
  · intro env
    cases env with
    | none => simp [is_enabled]
    | some v => simp [is_enabled]
  · intro ctx fs sid tr h
    exact ⟨by simp [save_session, h], by simp [load_session, h]⟩

/-- Witness for claim C10 at a concrete disabled environment. -/
theorem claim_C10_persistence_enable_flag_witness :
    save_session ⟨some "1", none, 0, true, "u"⟩ [] "s" [] = (.ok (), []) ∧
    load_session ⟨some "1", none, 0, true, "u"⟩ [] "s" = .error .notEnabled :=
  claim_C10_persistence_enable_flag.2.2.2.2.2
    ⟨some "1", none, 0, true, "u"⟩ [] "s" [] (by decide)

/-- Claim C5: a `DisconnectionHandler` that is dropped after `k` polls
issues exactly one `cancel()` on the associated controller iff the
underlying stream never signalled exhaustion (`k ≤ length`), and zero
`cancel()` calls after a full normal drain; the "drained normally" flag
is set exactly when the end of the stream was observed. -/
theorem claim_C5_disconnect_cancellation :
    ∀ (items : List String) (controller session_id k : Nat),
      cancelCount (handler_drop
          (pollN (DisconnectionHandler.new items (some controller) session_id) k)) =
        (if k ≤ items.length then 1 else 0) ∧
      (pollN (DisconnectionHandler.new items (some controller) session_id) k).completed =
        decide (items.length < k) := by
  intro items controller session_id k
  have hnew : DisconnectionHandler.new items (some controller) session_id =
      ⟨items, some controller, session_id, false⟩ := rfl
  rw [hnew, pollN_spec]
  by_cases hk : k ≤ items.length
  · simp [hk, handler_drop, cancelCount, Nat.not_lt.mpr hk]
  · simp [hk, handler_drop, cancelCount, Nat.not_le.mp hk]

/-- Claim C4: one run of the lifecycle guard's release performs the
persistence attempt — a save exactly when the trace snapshot succeeded,
only a warning when it failed — and invokes `terminate` on the guard's
controller exactly once iff the guard is `Ephemeral`; a `Background`
guard performs no further action on the agent beyond persistence, and
persistence failure only adds a warning, never changes the rest. -/
theorem claim_C4_lifecycle_release_actions :
    (∀ (g : RequestLifecycle) (tr : Except String (List ChatMessage)) (save_err : Bool),
      terminateCount (lifecycle_drop g tr save_err) =
        (if g.isEphemeral then 1 else 0)) ∧
    (∀ (controller : Nat) (rid sid : String)
        (tr : Except String (List ChatMessage)) (save_err : Bool),
      lifecycle_drop (.ephemeral controller rid sid) tr save_err =
        drop_persist_actions sid tr save_err ++ [.terminate controller] ∧
      lifecycle_drop (.background controller rid sid) tr save_err =
        drop_persist_actions sid tr save_err) ∧
    (∀ (g : RequestLifecycle) (t : List ChatMessage) (save_err : Bool),
      saveCount (lifecycle_drop g (.ok t) save_err) = 1 ∧
      ReleaseAction.saveSession g.sessionId t ∈ lifecycle_drop g (.ok t) save_err) ∧
    (∀ (g : RequestLifecycle) (e : String) (save_err : Bool),
      saveCount (lifecycle_drop g (.error e) save_err) = 0 ∧
      ReleaseAction.warnTraceFailed g.sessionId ∈ lifecycle_drop g (.error e) save_err) := by
  refine ⟨?_, ?_, ?_, ?_⟩
  · intro g tr save_err
    cases g <;> cases tr <;> cases save_err <;>
      simp [lifecycle_drop, drop_persist_actions, terminateCount,
        RequestLifecycle.isEphemeral]
  · intro controller rid sid tr save_err
    exact ⟨rfl, rfl⟩
  · intro g t save_err
    cases g <;> cases save_err <;>
      simp [lifecycle_drop, drop_persist_actions, saveCount,
        RequestLifecycle.sessionId]
  · intro g e save_err
    cases g <;> cases save_err <;>
      simp [lifecycle_drop, drop_persist_actions, saveCount,
        RequestLifecycle.sessionId]

/-- Claim C7: with persistence enabled, `save_session` for a session id
and trace followed by `load_session` for the same id succeeds and
returns a record whose trace equals the saved trace exactly. -/
theorem claim_C7_save_load_roundtrip :
    ∀ (ctx : PersistCtx) (fs : FS) (sid : String) (tr : List ChatMessage),
      is_enabled ctx.env_enable = true → ctx.create_dir_ok = true →
      ∃ d : SessionData,
        load_session ctx (save_session ctx fs sid tr).2 sid = .ok d ∧
        d.trace = tr ∧ d.session_id = sid := by
  intro ctx fs sid tr hen hdir
  exact ⟨save_record ctx fs sid tr, save_load_eq ctx fs sid tr hen hdir, rfl, rfl⟩

/-- Witness for claim C7 at a concrete save-then-load. -/
theorem claim_C7_save_load_roundtrip_witness :
    ∃ d : SessionData,
      load_session ⟨none, none, 5, true, "u"⟩
          (save_session ⟨none, none, 5, true, "u"⟩ [] "s1" [⟨"hi"⟩]).2 "s1" =
        .ok d ∧
      d.trace = [⟨"hi"⟩] ∧ d.session_id = "s1" :=
  claim_C7_save_load_roundtrip ⟨none, none, 5, true, "u"⟩ [] "s1" [⟨"hi"⟩] rfl rfl

/-- Claim C8: when the existing on-disk record is readable and parses,
a subsequent `save_session` preserves its `created_at` and stamps
`updated_at` with the current time (which is at least the previous
`updated_at` whenever the clock did not go backwards); when no prior
record exists or it does not parse, both timestamps are set to now. -/
theorem claim_C8_created_at_preserved :
    ∀ (ctx : PersistCtx) (fs : FS) (sid : String) (tr : List ChatMessage),
      is_enabled ctx.env_enable = true → ctx.create_dir_ok = true →
      (∀ d : SessionData,
        lookupFS fs (session_file_path ctx.env_folder sid) = some (.valid d) →
          load_session ctx (save_session ctx fs sid tr).2 sid =
            .ok { session_id := sid, created_at := d.created_at,
                  updated_at := ctx.now, trace := tr } ∧
          (d.updated_at ≤ ctx.now →
            d.updated_at ≤ (save_record ctx fs sid tr).updated_at)) ∧
      (lookupFS fs (session_file_path ctx.env_folder sid) = none →
          load_session ctx (save_session ctx fs sid tr).2 sid =
            .ok { session_id := sid, created_at := ctx.now,
                  updated_at := ctx.now, trace := tr }) ∧
      (∀ raw : String,
        lookupFS fs (session_file_path ctx.env_folder sid) = some (.invalid raw) →
          load_session ctx (save_session ctx fs sid tr).2 sid =
            .ok { session_id := sid, created_at := ctx.now,
                  updated_at := ctx.now, trace := tr }) := by
  intro ctx fs sid tr hen hdir
  have hl := save_load_eq ctx fs sid tr hen hdir
  refine ⟨?_, ?_, ?_⟩
  · intro d hd
    refine ⟨?_, ?_⟩
    · rw [hl]
      simp [save_record, save_timestamps, hd]
    · intro hle
      simpa [save_record, save_timestamps, hd] using hle
  · intro hd
    rw [hl]
    simp [save_record, save_timestamps, hd]
  · intro raw hd
    rw [hl]
    simp [save_record, save_timestamps, hd]

/-- Witness for claim C8: a second save over an existing parseable
record keeps `created_at = 5` and advances `updated_at` to `9`. -/
theorem claim_C8_created_at_preserved_witness :
    load_session ⟨none, none, 9, true, "u2"⟩
        (save_session ⟨none, none, 9, true, "u2"⟩
          [(".shai/sessions/s1.json",
            .valid ⟨"s1", 5, 5, [⟨"hi"⟩]⟩)] "s1" [⟨"b"⟩]).2 "s1" =
      .ok { session_id := "s1", created_at := 5, updated_at := 9,
            trace := [⟨"b"⟩] } :=
  ((claim_C8_created_at_preserved ⟨none, none, 9, true, "u2"⟩
      [(".shai/sessions/s1.json", .valid ⟨"s1", 5, 5, [⟨"hi"⟩]⟩)] "s1" [⟨"b"⟩]
      rfl rfl).1 ⟨"s1", 5, 5, [⟨"hi"⟩]⟩ (by decide)).1

/-- Claim C6: `save_session` writes the fully serialized record to a
freshly named temporary file and only then renames it onto the final
per-session path; a reader of the final path at any intermediate point
— including while arbitrary (possibly partial) content sits in the
temporary file, or after a crash between the write and the rename —
sees either the complete previous content or the complete new record,
never a mixture. -/
theorem claim_C6_atomic_save :
    ∀ (ctx : PersistCtx) (fs : FS) (sid : String) (tr : List ChatMessage),
      temp_file_path ctx.env_folder ctx.tmp_uuid ≠
        session_file_path ctx.env_folder sid →
      is_enabled ctx.env_enable = true → ctx.create_dir_ok = true →
      (save_steps ctx fs sid tr =
        [ .write (temp_file_path ctx.env_folder ctx.tmp_uuid)
            (.valid (save_record ctx fs sid tr)),
          .rename (temp_file_path ctx.env_folder ctx.tmp_uuid)
            (session_file_path ctx.env_folder sid) ]) ∧
      ((save_session ctx fs sid tr).2 = applySteps fs (save_steps ctx fs sid tr)) ∧
      (∀ c0 : FileContent,
        lookupFS (applyStep fs (.write (temp_file_path ctx.env_folder ctx.tmp_uuid) c0))
            (session_file_path ctx.env_folder sid) =
          lookupFS fs (session_file_path ctx.env_folder sid)) ∧
      (∀ n : Nat,
        lookupFS (applySteps fs ((save_steps ctx fs sid tr).take n))
            (session_file_path ctx.env_folder sid) =
          lookupFS fs (session_file_path ctx.env_folder sid) ∨
        lookupFS (applySteps fs ((save_steps ctx fs sid tr).take n))
            (session_file_path ctx.env_folder sid) =
          some (.valid (save_record ctx fs sid tr))) ∧
      (lookupFS (applySteps fs ((save_steps ctx fs sid tr).take 1))
          (session_file_path ctx.env_folder sid) =
        lookupFS fs (session_file_path ctx.env_folder sid)) ∧
      (lookupFS (applySteps fs (save_steps ctx fs sid tr))
          (session_file_path ctx.env_folder sid) =
        some (.valid (save_record ctx fs sid tr))) := by
  intro ctx fs sid tr hfresh hen hdir
  have hwrite : ∀ c0 : FileContent,
      lookupFS (applyStep fs (.write (temp_file_path ctx.env_folder ctx.tmp_uuid) c0))
          (session_file_path ctx.env_folder sid) =
        lookupFS fs (session_file_path ctx.env_folder sid) := by
    intro c0
    simp only [applyStep, lookupFS, if_neg hfresh]
    exact lookupFS_removeKey_ne fs _ _ (Ne.symm hfresh)
  have hstep1 : lookupFS (applySteps fs ((save_steps ctx fs sid tr).take 1))
      (session_file_path ctx.env_folder sid) =
      lookupFS fs (session_file_path ctx.env_folder sid) := by
    have hw := hwrite (FileContent.valid (save_record ctx fs sid tr))
    simpa [save_steps, applySteps] using hw
  refine ⟨rfl, by simp [save_session, hen, hdir], hwrite, ?_, hstep1,
    save_fs_final ctx fs sid tr⟩
  intro n
  match n with
  | 0 => exact Or.inl rfl
  | 1 => exact Or.inl hstep1
  | Nat.succ (Nat.succ m) =>
    have htake : (save_steps ctx fs sid tr).take (m + 2) = save_steps ctx fs sid tr := by
      simp [save_steps]
    exact Or.inr (by rw [htake]; exact save_fs_final ctx fs sid tr)

/-- Witness for claim C6: with an old record on disk, the read at the
crash point (temporary written, not yet renamed) still returns the old
record, and the read after the rename returns the new one. -/
theorem claim_C6_atomic_save_witness :
    lookupFS (applySteps [(".shai/sessions/s1.json", .valid ⟨"s1", 5, 5, [⟨"hi"⟩]⟩)]
        ((save_steps ⟨none, none, 9, true, "u2"⟩
          [(".shai/sessions/s1.json", .valid ⟨"s1", 5, 5, [⟨"hi"⟩]⟩)] "s1" [⟨"b"⟩]).take 1))
        (session_file_path none "s1") =
      lookupFS [(".shai/sessions/s1.json", FileContent.valid ⟨"s1", 5, 5, [⟨"hi"⟩]⟩)]
        (session_file_path none "s1") ∧
    lookupFS (applySteps [(".shai/sessions/s1.json", .valid ⟨"s1", 5, 5, [⟨"hi"⟩]⟩)]
        (save_steps ⟨none, none, 9, true, "u2"⟩
          [(".shai/sessions/s1.json", .valid ⟨"s1", 5, 5, [⟨"hi"⟩]⟩)] "s1" [⟨"b"⟩]))
        (session_file_path none "s1") =
      some (.valid (save_record ⟨none, none, 9, true, "u2"⟩
        [(".shai/sessions/s1.json", .valid ⟨"s1", 5, 5, [⟨"hi"⟩]⟩)] "s1" [⟨"b"⟩])) :=
  have h := claim_C6_atomic_save ⟨none, none, 9, true, "u2"⟩
    [(".shai/sessions/s1.json", .valid ⟨"s1", 5, 5, [⟨"hi"⟩]⟩)] "s1" [⟨"b"⟩]
    (by decide) rfl rfl
  ⟨h.2.2.2.2.1, h.2.2.2.2.2⟩

/-- Claim C3: session resolution follows the order cache hit (existing
session returned unchanged regardless of the creation gate and the
capacity limit, no agent started), then creation gate
(`SessionCreationDisabled`), then capacity (`CapacityExceeded` when
`max_sessions` is set and reached), and otherwise start a new agent,
spawn a watcher, insert the session, and return it. -/
theorem claim_C3_resolution_order :
    ∀ (st : ManagerState) (sid : String) (an : Option String) (eph ok : Bool),
      (∀ s : AgentSession, lookupFS st.sessions sid = some s →
        get_or_create_session st sid an eph ok = .ok (s, st)) ∧
      (lookupFS st.sessions sid = none → st.allow_creation = false →
        get_or_create_session st sid an eph ok = .error sessionCreationDisabledErr) ∧
      (∀ max : Nat, lookupFS st.sessions sid = none → st.allow_creation = true →
        st.max_sessions = some max → max ≤ st.sessions.length →
        get_or_create_session st sid an eph ok = .error (capacityExceededErr max)) ∧
      (lookupFS st.sessions sid = none → st.allow_creation = true →
        capacity_available st → ok = true →
        get_or_create_session st sid an eph ok =
          .ok ((create_session st sid an eph).1, insertedState st sid an eph) ∧
        (create_session st sid an eph).1.id = sid ∧
        (create_session st sid an eph).1.agentInstance = st.nextAgent ∧
        (create_session st sid an eph).1.watcherSpawned = true ∧
        (insertedState st sid an eph).nextAgent = st.nextAgent + 1 ∧
        lookupFS (insertedState st sid an eph).sessions sid =
          some (create_session st sid an eph).1 ∧
        (insertedState st sid an eph).sessions.length = st.sessions.length + 1) := by
  intro st sid an eph ok
  refine ⟨fun s h => get_or_create_hit st sid an eph ok s h, ?_, ?_, ?_⟩
  · intro hl hallow
    simp [get_or_create_session, hl, hallow]
  · intro max hl hallow hmax hfull
    simp [get_or_create_session, hl, hallow, hmax, hfull]
  · intro hl hallow hcap hok
    subst hok
    refine ⟨get_or_create_miss st sid an eph hl hallow hcap, rfl, rfl, rfl, rfl, ?_, rfl⟩
    exact lookupFS_cons_self sid (create_session st sid an eph).1 st.sessions

/-- Concrete one-entry registry used by the witnesses below. -/
def exampleFullState : ManagerState :=
  insertedState (managerNew (some 1) false) "a" none false

/-- Witness for claim C3: concrete cache hit at capacity, gate closure,
capacity rejection, and successful creation. -/
theorem claim_C3_resolution_order_witness :
    get_or_create_session exampleFullState "a" none false true =
      .ok ((create_session (managerNew (some 1) false) "a" none false).1,
        exampleFullState) ∧
    get_or_create_session (set_allow_creation (managerNew (some 1) false) false)
        "b" none false true =
      .error sessionCreationDisabledErr ∧
    get_or_create_session exampleFullState "b" none false true =
      .error (capacityExceededErr 1) ∧
    get_or_create_session (managerNew (some 1) false) "a" none false true =
      .ok ((create_session (managerNew (some 1) false) "a" none false).1,
        exampleFullState) := by
  refine ⟨?_, ?_, ?_, ?_⟩
  · exact (claim_C3_resolution_order exampleFullState "a" none false true).1
      (create_session (managerNew (some 1) false) "a" none false).1 (by decide)
  · exact (claim_C3_resolution_order
      (set_allow_creation (managerNew (some 1) false) false) "b" none false true).2.1
      (by decide) rfl
  · exact (claim_C3_resolution_order exampleFullState "b" none false true).2.2.1
      1 (by decide) rfl rfl (by decide)
  · exact ((claim_C3_resolution_order (managerNew (some 1) false) "a" none false
      true).2.2.2 (by decide) rfl (by simp [capacity_available, managerNew]) rfl).1

theorem runRequests_cached (st : ManagerState) (sid : String)
    (an : Option String) (ok : Bool) (s : AgentSession)
    (h : lookupFS st.sessions sid = some s) :
    ∀ n : Nat, runRequests st sid an ok n = (List.replicate n (.ok (s, sid)), st) := by
  intro n
  induction n with
  | zero => rfl
  | succ n ih =>
    have hres : handle_request_resolve st (some sid) "" an ok = .ok (s, sid, st) := by
      simp [handle_request_resolve, get_or_create_hit st sid an st.ephemeral ok s h]
    simp [runRequests, hres, ih, List.replicate]

/-- Claim C1: any serialization of `n ≥ 1` concurrent `handle_request`
calls sharing one `session_id` unknown to the registry (the registry
mutex makes each resolution atomic, so every concurrent execution is
such a serialization) creates exactly one session and one underlying
agent instance, and every caller gets the same session and the same
resolved identifier back. -/
theorem claim_C1_single_creation :
    ∀ (st : ManagerState) (sid : String) (an : Option String) (n : Nat),
      lookupFS st.sessions sid = none → st.allow_creation = true →
      capacity_available st → 0 < n →
      ∃ s : AgentSession,
        s.id = sid ∧ s.agentInstance = st.nextAgent ∧ s.watcherSpawned = true ∧
        (runRequests st sid an true n).1 = List.replicate n (.ok (s, sid)) ∧
        (runRequests st sid an true n).2.nextAgent = st.nextAgent + 1 ∧
        lookupFS (runRequests st sid an true n).2.sessions sid = some s ∧
        (runRequests st sid an true n).2.sessions.length = st.sessions.length + 1 := by
  intro st sid an n hl hallow hcap hn
  obtain ⟨m, rfl⟩ : ∃ m, n = m + 1 := ⟨n - 1, by omega⟩
  refine ⟨(create_session st sid an st.ephemeral).1, rfl, rfl, rfl, ?_⟩
  have hmiss := get_or_create_miss st sid an st.ephemeral hl hallow hcap
  have hres : handle_request_resolve st (some sid) "" an true =
      .ok ((create_session st sid an st.ephemeral).1, sid,
        insertedState st sid an st.ephemeral) := by
    simp [handle_request_resolve, hmiss]
  have hlook : lookupFS (insertedState st sid an st.ephemeral).sessions sid =
      some (create_session st sid an st.ephemeral).1 :=
    lookupFS_cons_self _ _ _
  have hrun : runRequests st sid an true (m + 1) =
      (Except.ok ((create_session st sid an st.ephemeral).1, sid) ::
        List.replicate m (.ok ((create_session st sid an st.ephemeral).1, sid)),
        insertedState st sid an st.ephemeral) := by
    simp [runRequests, hres,
      runRequests_cached (insertedState st sid an st.ephemeral) sid an true
        (create_session st sid an st.ephemeral).1 hlook]
  rw [hrun]
  exact ⟨by simp [List.replicate], rfl, hlook, rfl⟩

/-- Witness for claim C1: three requests for the unknown id `"a"` on a
fresh manager yield three identical successes and a single creation. -/
theorem claim_C1_single_creation_witness :
    ∃ s : AgentSession,
      s.id = "a" ∧ s.agentInstance = 0 ∧ s.watcherSpawned = true ∧
      (runRequests (managerNew (some 1) false) "a" none true 3).1 =
        List.replicate 3 (.ok (s, "a")) ∧
      (runRequests (managerNew (some 1) false) "a" none true 3).2.nextAgent = 0 + 1 ∧
      lookupFS (runRequests (managerNew (some 1) false) "a" none true 3).2.sessions
        "a" = some s ∧
      (runRequests (managerNew (some 1) false) "a" none true 3).2.sessions.length =
        0 + 1 :=
  claim_C1_single_creation (managerNew (some 1) false) "a" none 3 rfl rfl
    (by simp [capacity_available, managerNew]) (by decide)

theorem get_or_create_shape (st : ManagerState) (sid2 : String)
    (an : Option String) (eph ok : Bool) (s : AgentSession) (st' : ManagerState)
    (h : get_or_create_session st sid2 an eph ok = .ok (s, st')) :
    st' = st ∨
      (lookupFS st.sessions sid2 = none ∧
        st'.sessions = (sid2, s) :: st.sessions) := by
  unfold get_or_create_session at h
  cases hl : lookupFS st.sessions sid2 with
  | some s0 =>
    rw [hl] at h
    simp at h
    exact Or.inl h.2.symm
  | none =>
    rw [hl] at h
    by_cases hallow : st.allow_creation
    · simp [hallow] at h
      cases hmax : st.max_sessions with
      | none =>
        rw [hmax] at h
        by_cases hok : ok
        · subst hok
          simp [create_session] at h
          exact Or.inr ⟨rfl, by rw [← h.2, ← h.1]⟩
        · simp [Bool.not_eq_true] at hok
          subst hok
          simp at h
      | some max =>
        rw [hmax] at h
        by_cases hfull : st.sessions.length ≥ max
        · simp [hfull] at h
        · simp [hfull] at h
          by_cases hok : ok
          · subst hok
            simp [create_session] at h
            exact Or.inr ⟨rfl, by rw [← h.2, ← h.1]⟩
          · simp [Bool.not_eq_true] at hok
            subst hok
            simp at h
    · simp [hallow] at h

/-- Claim C9: when the agent's run loop exits — with success or error
alike — the watcher spawned at session creation removes the session's
registry entry (atomically, the lock being held for the removal),
touching no other entry, independently of how many requests ever
attached; and request-side resolution (`get_or_create_session`) never
removes an entry from the registry. -/
theorem claim_C9_watcher_removes_session :
    ∀ (st : ManagerState) (sid : String) (outcome : Except String Unit),
      lookupFS (watcher_cleanup st sid outcome).sessions sid = none ∧
      (∀ o2 : Except String Unit,
        watcher_cleanup st sid outcome = watcher_cleanup st sid o2) ∧
      (∀ k : String, k ≠ sid →
        lookupFS (watcher_cleanup st sid outcome).sessions k =
          lookupFS st.sessions k) ∧
      (∀ (an : Option String) (eph : Bool),
        (create_session st sid an eph).1.watcherSpawned = true) ∧
      (∀ (sid2 : String) (an : Option String) (eph ok : Bool)
          (k : String) (v s : AgentSession) (st' : ManagerState),
        lookupFS st.sessions k = some v →
        get_or_create_session st sid2 an eph ok = .ok (s, st') →
        lookupFS st'.sessions k = some v) := by
  intro st sid outcome
  refine ⟨?_, ?_, ?_, fun an eph => rfl, ?_⟩
  · cases outcome <;> exact lookupFS_removeKey_self st.sessions sid
  · intro o2
    cases outcome <;> cases o2 <;> rfl
  · intro k hk
    cases outcome <;> exact lookupFS_removeKey_ne st.sessions sid k hk
  · intro sid2 an eph ok k v s st' hk h
    rcases get_or_create_shape st sid2 an eph ok s st' h with he | ⟨hl2, hs⟩
    · rw [he]
      exact hk
    · rw [hs]
      have hks : ¬ sid2 = k := by
        intro he2
        rw [he2, hk] at hl2
        cases hl2
      simp [lookupFS, hks]
      exact hk

/-- Witness for claim C9: the watcher removes `"a"` from the one-entry
registry whatever the run outcome, and resolution preserves entries. -/
theorem claim_C9_watcher_removes_session_witness :
    lookupFS (watcher_cleanup exampleFullState "a" (.error "boom")).sessions
      "a" = none ∧
    lookupFS (watcher_cleanup exampleFullState "a" (.error "boom")).sessions
      "b" = lookupFS exampleFullState.sessions "b" ∧
    lookupFS exampleFullState.sessions "a" =
      some (create_session (managerNew (some 1) false) "a" none false).1 :=
  have h := claim_C9_watcher_removes_session exampleFullState "a" (.error "boom")
  ⟨h.1, h.2.2.1 "b" (by decide),
    h.2.2.2.2 "a" none false true "a"
      (create_session (managerNew (some 1) false) "a" none false).1
      (create_session (managerNew (some 1) false) "a" none false).1
      exampleFullState (by decide) rfl⟩

theorem runLease_invariant (es : List LeaseEvent) :
    ∀ s s' : Option Nat, runLease s es = some s' →
      liveOf s + countAcq es = liveOf s' + countRel es := by
  induction es with
  | nil =>
    intro s s' h
    simp [runLease] at h
    subst h
    simp [countAcq, countRel]
  | cons e rest ih =>
    intro s s' h
    cases e with
    | acquire r =>
      cases s with
      | none =>
        simp [runLease, leaseStep] at h
        have hrec := ih (some r) s' h
        simp [countAcq, countRel, liveOf] at hrec ⊢
        omega
      | some h0 =>
        simp [runLease, leaseStep] at h
    | release r =>
      cases s with
      | none =>
        simp [runLease, leaseStep] at h
      | some h0 =>
        by_cases hr : h0 = r
        · simp [runLease, leaseStep, hr] at h
          have hrec := ih none s' h
          simp [countAcq, countRel, liveOf] at hrec ⊢
          omega
        · simp [runLease, leaseStep, hr] at h

theorem runLease_append (es₁ es₂ : List LeaseEvent) :
    ∀ s : Option Nat,
      runLease s (es₁ ++ es₂) =
        match runLease s es₁ with
        | none => none
        | some s₁ => runLease s₁ es₂ := by
  induction es₁ with
  | nil => intro s; simp [runLease]
  | cons e rest ih =>
    intro s
    cases hstep : leaseStep s e with
    | none => simp [runLease, hstep]
    | some s' => simp [runLease, hstep, ih s']

/-- Claim C2: along every valid trace of the per-session lease protocol
started from the free state, every prefix has at most one more acquired
guard than released guards — at every instant at most one live
`RequestLifecycleGuard` holds the session's control lease — and an
acquire is not enabled while the lease is held, so a second concurrent
request waits for the release before proceeding. -/
theorem claim_C2_exclusive_lease :
    (∀ (es₁ es₂ : List LeaseEvent) (s' : Option Nat),
      runLease none (es₁ ++ es₂) = some s' →
      countAcq es₁ ≤ countRel es₁ + 1) ∧
    (∀ (h r : Nat), leaseStep (some h) (.acquire r) = none) := by
  constructor
  · intro es₁ es₂ s' h
    have happ := runLease_append es₁ es₂ none
    rw [h] at happ
    cases hs : runLease none es₁ with
    | none => rw [hs] at happ; cases happ
    | some s₁ =>
      have hinv := runLease_invariant es₁ none s₁ hs
      have hlive : liveOf s₁ ≤ 1 := by
        cases s₁ <;> simp [liveOf]
      have h0 : liveOf none = 0 := rfl
      rw [h0] at hinv
      omega
  · intro h r
    rfl

/-- Witness for claim C2: the two-request trace "request 0 acquires and
releases, then request 1 acquires" is valid, and each of its prefixes
has at most one live guard. -/
theorem claim_C2_exclusive_lease_witness :
    countAcq [.acquire 0] ≤ countRel [.acquire 0] + 1 ∧
    leaseStep (some 0) (.acquire 1) = none :=
  ⟨claim_C2_exclusive_lease.1 [.acquire 0] [.release 0, .acquire 1] (some 1) rfl,
    claim_C2_exclusive_lease.2 0 1⟩

end Shai
